import Mathlib

/-!
Verification of the Behavior Intelligence & Adaptive Planning Engine of the
Pulse fitness backend.  The Lean definitions below are a shallow embedding of
the Python source under `src/backend/app/`:

* `intelligence_service.py` — behavior metrics (consistency, dropout/burnout
  risk, momentum trend, max gap, mistake rules, focus mapping);
* `plan_service.py` — weekly plan adjustments (deload / reduction / increase
  with hysteresis and volume clamping);
* `report_service.py` — weekly report generation;
* `utils/timezone.py` — user-local "today" resolution via pytz.

Python `float` values are modelled as `Rat` (every arithmetic operation used
by this code — `+`, `-`, `*`, `/`, comparisons, `round(x, n)` — is exact on
the rational inputs the claims exercise; Python's `round` uses
round-half-to-even, which differs from round-half-up only at exact ties,
which no operation relevant to the claims produces).  Python `int` is `Int`,
`None`-able values are `Option`, calendar dates are `Int` day numbers, and a
raised Python exception is the `.error` case of `Except String`.
Database reads (plan row, metrics row, prior adjustments, workout
aggregates) enter as explicit function arguments.
-/

namespace Pulse

/-- `round(x, 2)` of Python on a rational value: round `x * 100` to the
nearest integer (half rounds up, see the file comment) and divide by 100. -/
def roundTo2 (x : Rat) : Rat := ((⌊x * 100 + 1 / 2⌋ : ℤ) : Rat) / 100

/-! ## `intelligence_service.py` -/

/-- `_sanitize_timezone` (intelligence_service.py:34-38, duplicated in
plan_service.py and report_service.py): keep the string only when it is
non-empty and matches `^[A-Za-z0-9_/+-]+$`; otherwise return `"UTC"`. -/
def sanitize_timezone (tz : String) : String :=
  if tz.isEmpty || !(tz.toList.all fun c =>
      c.isAlphanum || c == '_' || c == '/' || c == '+' || c == '-') then
    "UTC"
  else tz

/-- `_consistency_score` (intelligence_service.py:302-310).
`workouts_14 / (target_days_per_week * 2) * 100`, clamped to `[0, 100]`,
with both `target_days_per_week <= 0` guards short-circuiting to `100`. -/
def consistency_score (workouts_14 : ℤ) (target_days_per_week : ℤ) : Rat :=
  if target_days_per_week ≤ 0 then 100
  else
    let expected_2w := target_days_per_week * 2
    if expected_2w ≤ 0 then 100
    else min 100 (max 0 ((workouts_14 : Rat) / (expected_2w : Rat) * 100))

/-- Python `max_gap_days is not None and max_gap_days > c` on an optional
integer. -/
def opt_gt (o : Option ℤ) (c : ℤ) : Prop :=
  match o with
  | none => False
  | some g => g > c

instance : (o : Option ℤ) → (c : ℤ) → Decidable (opt_gt o c)
  | none, _ => isFalse fun h => h
  | some g, c => inferInstanceAs (Decidable (g > c))

/-- `_dropout_risk` (intelligence_service.py:312-320). -/
def dropout_risk (workouts_14 : ℤ) (max_gap_days_v : Option ℤ) : String :=
  if workouts_14 = 0 then "high"
  else if opt_gt max_gap_days_v 5 then "high"
  else if opt_gt max_gap_days_v 3 then "medium"
  else "low"

/-- Python truthiness-and-comparison `avg_duration_7 and avg_duration_7 >= 60`
used by `_burnout_risk`: `None` and `0.0` are falsy. -/
def truthy_ge_60 (o : Option Rat) : Prop :=
  match o with
  | none => False
  | some d => d ≠ 0 ∧ 60 ≤ d

instance : (o : Option Rat) → Decidable (truthy_ge_60 o)
  | none => isFalse fun h => h
  | some d => inferInstanceAs (Decidable (d ≠ 0 ∧ 60 ≤ d))

/-- `_burnout_risk` (intelligence_service.py:322-333).  NOTE: the source
checks the `medium` condition BEFORE the `high` condition, so
`workouts_14 >= 12` together with a truthy `avg_duration_7 >= 60` yields
`"medium"`.  The unused `target_minutes` parameter is kept from the source
signature. -/
def burnout_risk (workouts_14 : ℤ) (avg_duration_7 : Option Rat)
    (target_minutes : ℤ) : String :=
  let _ := target_minutes
  if workouts_14 ≥ 10 ∧ truthy_ge_60 avg_duration_7 then "medium"
  else if workouts_14 ≥ 12 then "high"
  else "low"

/-- `_momentum_trend` (intelligence_service.py:335-343). -/
def momentum_trend (volume_delta_pct_v : Option Rat) : String :=
  match volume_delta_pct_v with
  | none => "stable"
  | some d => if d > 10 then "rising" else if d < -15 then "falling" else "stable"

/-- `_volume_delta_pct` (intelligence_service.py:262-270):
`None` when the previous window's volume is `None` or `0`, `None` when the
current volume is `None`, otherwise `(current - prev) / prev * 100`. -/
def volume_delta_pct (volume_7 : Option Rat) (volume_prev_7 : Option Rat) :
    Option Rat :=
  match volume_prev_7 with
  | none => none
  | some p =>
    if p = 0 then none
    else
      match volume_7 with
      | none => none
      | some c => some ((c - p) / p * 100)

/-- Gaps between consecutive elements of a sorted date list:
`in_window[i + 1] - in_window[i] - 1` (intelligence_service.py:282-283). -/
def gaps_between : List ℤ → List ℤ
  | [] => []
  | [_] => []
  | a :: b :: rest => (b - a - 1) :: gaps_between (b :: rest)

/-- `_max_gap_days` (intelligence_service.py:272-285).  The Python
`worked_dates` set is modelled as a duplicate-free list; `sorted(...)` on the
filtered window is an insertion sort.  `None` when the set is empty; the full
29-day span when the set is non-empty but misses the window; otherwise the
maximum of the leading gap, the inter-workout gaps and the trailing gap. -/
def max_gap_days (worked_dates : List ℤ) (today : ℤ) : Option ℤ :=
  if worked_dates = [] then none
  else
    let window_start := today - 29
    let in_window :=
      (worked_dates.filter fun d => decide (window_start ≤ d ∧ d ≤ today)).insertionSort (· ≤ ·)
    match in_window with
    | [] => some (today - window_start)
    | d0 :: rest =>
      some (List.foldl max (d0 - window_start)
        (gaps_between (d0 :: rest) ++ [today - ((d0 :: rest).getLast?.getD d0)]))

/-- The `workouts_7` count (intelligence_service.py:71): distinct worked
dates whose age in days from today is `< 7`. -/
def workouts_last_7 (worked_dates : List ℤ) (today : ℤ) : ℤ :=
  ((worked_dates.filter fun d => decide (today - d < 7)).length : ℤ)

/-- The `workouts_14` count (intelligence_service.py:72): distinct worked
dates whose age in days from today is `< 14`. -/
def workouts_last_14 (worked_dates : List ℤ) (today : ℤ) : ℤ :=
  ((worked_dates.filter fun d => decide (today - d < 14)).length : ℤ)

/-- `MISTAKE_TO_FOCUS` table (intelligence_service.py:25-31):
mistake key ↦ (focus key, focus label). -/
def MISTAKE_TO_FOCUS : List (String × String × String) :=
  [("inconsistent_training_days", "hit_target_days", "Hit your target workouts this week"),
   ("volume_drop", "add_extra_set", "Add 1 extra set per exercise"),
   ("no_progression_21_days", "progression_check", "Try adding weight or reps on your main lifts"),
   ("overtraining_signals", "recovery_focus", "Prioritize recovery and sleep"),
   ("sessions_too_short", "lengthen_sessions", "Aim for at least {target} minutes per session")]

/-- `_detect_mistake` (intelligence_service.py:359-392): five rules in
priority order, first match wins.  Rules 3 and 4 are unimplemented stubs in
the source.  The unused `burnout_risk_s` parameter is kept from the source
signature; `volume_7` is `Option` because the body guards it with
`is not None`. -/
def detect_mistake (workouts_14 : ℤ) (target_days : ℤ) (max_gap : Option ℤ)
    (volume_7 : Option Rat) (volume_prev_7 : Rat) (avg_duration_7 : Option Rat)
    (target_minutes : ℤ) (burnout_risk_s : String) :
    Option (String × String) :=
  let _ := burnout_risk_s
  let threshold := max 0 (target_days * 2 - 1)
  let rule5 : Option (String × String) :=
    if target_minutes > 15 then
      match avg_duration_7 with
      | some d =>
        if d < (target_minutes : Rat) - 15 then
          some ("sessions_too_short", "Sessions Too Short")
        else none
      | none => none
    else none
  if workouts_14 < threshold ∨ opt_gt max_gap 4 then
    some ("inconsistent_training_days", "Inconsistent Training Days")
  else if volume_prev_7 > 0 then
    match volume_7 with
    | some v =>
      if (volume_prev_7 - v) / volume_prev_7 * 100 ≥ 25 then
        some ("volume_drop", "Volume Drop")
      else rule5
    | none => rule5
  else rule5

/-- `_mistake_to_focus` (intelligence_service.py:394-403): look the mistake
key up in `MISTAKE_TO_FOCUS` and substitute `target_minutes - 15`
(floored at 15) into the one parameterized label. -/
def mistake_to_focus (mistake_key : Option String) (target_minutes : ℤ) :
    Option String × Option String :=
  match mistake_key with
  | none => (none, none)
  | some k =>
    match MISTAKE_TO_FOCUS.find? (fun e => e.1 == k) with
    | none => (none, none)
    | some (_, fk, fl) =>
      let fl :=
        if (fl.splitOn "{target}").length != 1 then
          fl.replace "{target}" (toString (max 15 (target_minutes - 15)))
        else fl
      (some fk, some fl)

/-! ## `plan_service.py` -/

/-- `MIN_VOLUME` (plan_service.py:19). -/
def MIN_VOLUME : Rat := 6 / 10

/-- `MAX_VOLUME` (plan_service.py:20). -/
def MAX_VOLUME : Rat := 12 / 10

/-- `_clamp_volume` (plan_service.py:46-47):
`round(min(MAX_VOLUME, max(MIN_VOLUME, value)), 2)`. -/
def clamp_volume (value : Rat) : Rat :=
  roundTo2 (min MAX_VOLUME (max MIN_VOLUME value))

/-- The two `TrainingPlan` fields read by `compute_weekly_adjustment`
(plan_service.py).  `volume_multiplier` starts at `1.0` in `create_plan`
(plan_service.py:84). -/
structure TrainingPlan where
  volume_multiplier : Rat
  auto_adjust_enabled : Bool
deriving Repr, DecidableEq

/-- The `UserBehaviorMetrics` fields read by `compute_weekly_adjustment`. -/
structure MetricsRow where
  burnout_risk : String
  primary_training_mistake_key : Option String
  momentum_trend : String
  consistency_score : Option Rat
deriving Repr, DecidableEq

/-- The `WeeklyPlanAdjustment` fields produced and re-read by
`compute_weekly_adjustment`. -/
structure Adjustment where
  previous_volume_multiplier : Option Rat
  new_volume_multiplier : Option Rat
  is_deload : Bool
  trigger_reason : String
deriving Repr, DecidableEq

/-- `plan.volume_multiplier or 1.0` (plan_service.py:228/262/295): Python
truthiness makes a zero (or missing) multiplier fall back to `1.0`. -/
def plan_prev_volume (p : TrainingPlan) : Rat :=
  if p.volume_multiplier = 0 then 1 else p.volume_multiplier

/-- `_create_deload_adjustment` (plan_service.py:221-253): multiply by 0.6,
clamp; a no-op (same rounded value) creates no row and leaves the plan
unchanged.  Returns the resulting plan and the appended row, if any. -/
def create_deload_adjustment (plan : TrainingPlan) (trigger_reason : String) :
    TrainingPlan × Option Adjustment :=
  let prev := plan_prev_volume plan
  let new_vol := clamp_volume (prev * (6 / 10))
  if roundTo2 new_vol = roundTo2 prev then (plan, none)
  else ({ plan with volume_multiplier := new_vol },
        some { previous_volume_multiplier := some prev,
               new_volume_multiplier := some new_vol,
               is_deload := true, trigger_reason := trigger_reason })

/-- `_create_volume_reduction` (plan_service.py:255-286): multiply by 0.8,
clamp, same no-op guard, `is_deload = False`. -/
def create_volume_reduction (plan : TrainingPlan) (trigger_reason : String) :
    TrainingPlan × Option Adjustment :=
  let prev := plan_prev_volume plan
  let new_vol := clamp_volume (prev * (8 / 10))
  if roundTo2 new_vol = roundTo2 prev then (plan, none)
  else ({ plan with volume_multiplier := new_vol },
        some { previous_volume_multiplier := some prev,
               new_volume_multiplier := some new_vol,
               is_deload := false, trigger_reason := trigger_reason })

/-- `_create_volume_increase` (plan_service.py:288-319):
`new_vol = _clamp_volume(min(1.2, prev + 0.1))` — the source ADDS `0.1`
(capped at 1.2), it does not multiply by 1.1 — same no-op guard,
`is_deload = False`. -/
def create_volume_increase (plan : TrainingPlan) (trigger_reason : String) :
    TrainingPlan × Option Adjustment :=
  let prev := plan_prev_volume plan
  let new_vol := clamp_volume (min (12 / 10) (prev + 1 / 10))
  if roundTo2 new_vol = roundTo2 prev then (plan, none)
  else ({ plan with volume_multiplier := new_vol },
        some { previous_volume_multiplier := some prev,
               new_volume_multiplier := some new_vol,
               is_deload := false, trigger_reason := trigger_reason })

/-- The hysteresis threshold of `compute_weekly_adjustment`
(plan_service.py:199-208): 80 by default; 999 (unreachable) when the
immediately preceding adjustment was a deload; 85 when it was a non-deload
volume decrease. -/
def momentum_threshold_of (last_adjustment : Option Adjustment) : ℤ :=
  match last_adjustment with
  | none => 80
  | some la =>
    if la.is_deload then 999
    else
      match la.previous_volume_multiplier, la.new_volume_multiplier with
      | some p, some n => if n < p then 85 else 80
      | _, _ => 80

/-- `compute_weekly_adjustment` (plan_service.py:173-219) for an existing
plan.  The database reads enter as arguments: `existing` is the adjustment
row already stored for this (plan, week_start) if any, `metrics` the latest
metrics row, `last_adjustment` the most recent adjustment of an earlier
week.  Returns the plan after the call together with the adjustment row the
call returns.  (When the user has no plan at all the source returns `None`
without touching anything; that case has no plan argument and is omitted.) -/
def compute_weekly_adjustment (p : TrainingPlan) (existing : Option Adjustment)
    (metrics : Option MetricsRow) (last_adjustment : Option Adjustment) :
    TrainingPlan × Option Adjustment :=
  if !p.auto_adjust_enabled then (p, none)
  else
    match existing with
    | some e => (p, some e)
    | none =>
      let momentum_threshold := momentum_threshold_of last_adjustment
      match metrics with
      | none => (p, none)
      | some m =>
        if m.burnout_risk = "high" then
          create_deload_adjustment p "burnout"
        else if m.primary_training_mistake_key = some "volume_drop" then
          create_volume_reduction p "slipping"
        else if momentum_threshold ≥ 999 then (p, none)
        else if m.momentum_trend = "rising" then
          let consistency := m.consistency_score.getD 0
          if consistency ≥ (momentum_threshold : Rat) then
            create_volume_increase p "momentum_up"
          else (p, none)
        else (p, none)

/-- The volume_multiplier a `create_plan` call stores
(plan_service.py:84: `volume_multiplier=1.0`). -/
def create_plan_volume : Rat := 1

/-- One Plan Adjustment Engine volume operation, as applied to the plan's
`volume_multiplier` by the three `_create_*` helpers. -/
inductive PlanOp
  | deload
  | reduce
  | increase
deriving Repr, DecidableEq

/-- The effect of one applied adjustment on `volume_multiplier`: the
`_create_*` helper of the op, projected to the plan's multiplier (the no-op
guard leaves the multiplier unchanged). -/
def apply_adjustment_volume (vol : Rat) (op : PlanOp) : Rat :=
  let prev := if vol = 0 then 1 else vol
  let new_vol :=
    match op with
    | .deload => clamp_volume (prev * (6 / 10))
    | .reduce => clamp_volume (prev * (8 / 10))
    | .increase => clamp_volume (min (12 / 10) (prev + 1 / 10))
  if roundTo2 new_vol = roundTo2 prev then vol else new_vol

/-! ## `utils/timezone.py` and the timezone handling of `compute_metrics` -/

/-- Model of `pytz.timezone` (an external library): succeeds exactly on the
names of the IANA database, raising `UnknownTimeZoneError` on any other
string.  The database is abstracted as the list `known` of recognized
names. -/
def pytz_timezone (known : List String) (name : String) : Except String Unit :=
  if name ∈ known then .ok () else .error "UnknownTimeZoneError"

/-- `user_today`/`user_now` (utils/timezone.py:7-15):
`pytz.timezone(tz_name or "UTC")` then the current date in that zone.  The
clock is abstracted as `now_date`; an unrecognized name raises. -/
def user_today (known : List String) (now_date : ℤ) (tz_name : Option String) :
    Except String ℤ :=
  let name :=
    match tz_name with
    | none => "UTC"
    | some s => if s = "" then "UTC" else s
  match pytz_timezone known name with
  | .error e => .error e
  | .ok _ => .ok now_date

/-- The timezone handling of `IntelligenceService.compute_metrics`
(intelligence_service.py:57-62):
`user_tz = _sanitize_timezone(user.timezone or "Asia/Kolkata")` and
`today = metrics_date if metrics_date is not None else user_today(user_tz)`.
Returns the pair `(user_tz, today)` that the rest of the computation uses;
any exception of `user_today` propagates to the caller uncaught. -/
def compute_metrics_today (known : List String) (now_date : ℤ)
    (user_timezone : Option String) (metrics_date : Option ℤ) :
    Except String (String × ℤ) :=
  let user_tz := sanitize_timezone
    (match user_timezone with
     | none => "Asia/Kolkata"
     | some s => if s = "" then "Asia/Kolkata" else s)
  match metrics_date with
  | some d => .ok (user_tz, d)
  | none =>
    match user_today known now_date (some user_tz) with
    | .error e => .error e
    | .ok today => .ok (user_tz, today)

/-! ## `report_service.py` -/

/-- The `WeeklyTrainingReport` fields the claims are about. -/
structure WeeklyReport where
  workouts_count : ℕ
  status : String
  narrative : Option String
  narrative_source : Option String
deriving Repr, DecidableEq

/-- The positive-signal dictionary returned by `_detect_learning_feedback`. -/
structure LearningSignal where
  key : Option String
  label : Option String
  reason : Option String
deriving Repr, DecidableEq

/-- `_detect_learning_feedback` (report_service.py:426-471).  Its body
executes `prev_week_start = week_start - timedelta(days=7)` and then
`prev_week_end = week_end - timedelta(days=7)` — but `week_end` is not a
parameter, local, or global of that function, so the second statement raises
`NameError` on every call and the positive-signal comparison below it is
unreachable. -/
def detect_learning_feedback (total_volume_kg : Rat)
    (volume_delta_pct_v : Option Rat) (workouts_count : ℕ)
    (avg_session_duration : Option Rat) (week_start : ℤ) :
    Except String LearningSignal :=
  let _ := (total_volume_kg, volume_delta_pct_v, workouts_count,
    avg_session_duration)
  let _prev_week_start := week_start - 7
  .error "NameError: name week_end is not defined"

/-- `generate_weekly_report` (report_service.py:54-175) after the user and
week bounds are resolved.  Database state enters as arguments: `existing` is
a report already stored for (user, week_start); `workouts_count` is the
number of finalized workouts of the week; the aggregate numbers feed the
diagnosis.  With an existing report it is returned unchanged; with fewer
than 2 workouts a report with status `insufficient_data` and no narrative is
stored; otherwise `_detect_learning_feedback` is invoked (and raises, see
above) before the narrative (LLM text, else deterministic fallback) and the
`generated` report are built. -/
def generate_weekly_report (existing : Option WeeklyReport)
    (workouts_count : ℕ) (total_volume_kg : Rat)
    (volume_delta_pct_v : Option Rat) (avg_session_duration : Option Rat)
    (week_start : ℤ) (llm_narrative : Option String) (fallback : String) :
    Except String WeeklyReport :=
  match existing with
  | some r => .ok r
  | none =>
    if workouts_count < 2 then
      .ok { workouts_count := workouts_count, status := "insufficient_data",
            narrative := none, narrative_source := none }
    else
      match detect_learning_feedback total_volume_kg volume_delta_pct_v
          workouts_count avg_session_duration week_start with
      | .error e => .error e
      | .ok _learning =>
        let (narrative, narrative_source) :=
          match llm_narrative with
          | some t => (some t, some "llm")
          | none => (some fallback, some "fallback")
        .ok { workouts_count := workouts_count, status := "generated",
              narrative := narrative, narrative_source := narrative_source }

/-! ## Helper lemmas -/

/-- `roundTo2` fixes every rational with denominator 100. -/
theorem roundTo2_int_div_100 (k : ℤ) : roundTo2 ((k : Rat) / 100) = (k : Rat) / 100 := by
  unfold roundTo2
  have h : (k : Rat) / 100 * 100 + 1 / 2 = (k : Rat) + 1 / 2 := by
    field_simp
  rw [h, Int.floor_int_add]
  norm_num

/-- `clamp_volume` always lands in `[MIN_VOLUME, MAX_VOLUME]`. -/
theorem clamp_volume_mem (v : Rat) :
    MIN_VOLUME ≤ clamp_volume v ∧ clamp_volume v ≤ MAX_VOLUME := by
  have hylo : (6 : Rat) / 10 ≤ min MAX_VOLUME (max MIN_VOLUME v) :=
    le_min (by norm_num [MAX_VOLUME])
      (le_trans (by norm_num [MIN_VOLUME]) (le_max_left _ _))
  have hyhi : min MAX_VOLUME (max MIN_VOLUME v) ≤ 12 / 10 :=
    le_trans (min_le_left _ _) (by norm_num [MAX_VOLUME])
  set y := min MAX_VOLUME (max MIN_VOLUME v) with hy
  have hflo : (60 : ℤ) ≤ ⌊y * 100 + 1 / 2⌋ := by
    apply Int.le_floor.mpr
    push_cast
    nlinarith
  have hfhi : ⌊y * 100 + 1 / 2⌋ ≤ 120 := by
    have h121 : ⌊y * 100 + 1 / 2⌋ < 121 := by
      apply Int.floor_lt.mpr
      push_cast
      nlinarith
    omega
  have hcl : clamp_volume v = ((⌊y * 100 + 1 / 2⌋ : ℤ) : Rat) / 100 := by
    rw [clamp_volume, roundTo2, ← hy]
  have hcast : ((60 : ℤ) : Rat) ≤ ((⌊y * 100 + 1 / 2⌋ : ℤ) : Rat) := by
    exact_mod_cast hflo
  have hcast2 : ((⌊y * 100 + 1 / 2⌋ : ℤ) : Rat) ≤ ((120 : ℤ) : Rat) := by
    exact_mod_cast hfhi
  rw [hcl, MIN_VOLUME, MAX_VOLUME]
  constructor
  · push_cast at hcast ⊢
    linarith
  · push_cast at hcast2 ⊢
    linarith

/-- One applied adjustment keeps the multiplier in `[MIN_VOLUME, MAX_VOLUME]`. -/
theorem apply_adjustment_volume_mem (v : Rat) (op : PlanOp)
    (h : MIN_VOLUME ≤ v ∧ v ≤ MAX_VOLUME) :
    MIN_VOLUME ≤ apply_adjustment_volume v op ∧
      apply_adjustment_volume v op ≤ MAX_VOLUME := by
  have hv0 : ¬ v = 0 := by
    intro h0
    rw [h0] at h
    norm_num [MIN_VOLUME] at h
  unfold apply_adjustment_volume
  rw [if_neg hv0]
  cases op <;> simp only [] <;> split_ifs <;>
    first
      | exact h
      | exact clamp_volume_mem _

/-- The multiplier stays in range along any adjustment sequence. -/
theorem foldl_apply_adjustment_mem (ops : List PlanOp) (v : Rat)
    (h : MIN_VOLUME ≤ v ∧ v ≤ MAX_VOLUME) :
    MIN_VOLUME ≤ ops.foldl apply_adjustment_volume v ∧
      ops.foldl apply_adjustment_volume v ≤ MAX_VOLUME := by
  induction ops generalizing v with
  | nil => exact h
  | cons op rest ih =>
    exact ih _ (apply_adjustment_volume_mem v op h)

/-- A deload adjustment row, when created, carries its trigger reason and
`is_deload = true`. -/
theorem create_deload_row (p : TrainingPlan) (tr : String) (a : Adjustment)
    (h : (create_deload_adjustment p tr).2 = some a) :
    a.trigger_reason = tr ∧ a.is_deload = true := by
  simp only [create_deload_adjustment] at h
  split_ifs at h with hg
  injection h with h2
  subst h2
  exact ⟨rfl, rfl⟩

/-- A volume-reduction adjustment row, when created, carries its trigger
reason and `is_deload = false`. -/
theorem create_reduction_row (p : TrainingPlan) (tr : String) (a : Adjustment)
    (h : (create_volume_reduction p tr).2 = some a) :
    a.trigger_reason = tr ∧ a.is_deload = false := by
  simp only [create_volume_reduction] at h
  split_ifs at h with hg
  injection h with h2
  subst h2
  exact ⟨rfl, rfl⟩

/-! ## Claim theorems -/

/-- C7: for every `workouts_last_14_days` and `target_days_per_week`, the
consistency score equals `min(100, max(0, workouts/(target*2)*100))` when
the target is positive, is always within `[0, 100]`, and is exactly `100`
whenever `target_days_per_week ≤ 0`. -/
theorem consistency_score_spec (w t : ℤ) :
    (0 < t →
      consistency_score w t
        = min 100 (max 0 ((w : Rat) / ((t : Rat) * 2) * 100))) ∧
    0 ≤ consistency_score w t ∧ consistency_score w t ≤ 100 ∧
    (t ≤ 0 → consistency_score w t = 100) := by
  refine ⟨?_, ?_, ?_, ?_⟩
  · intro h0
    simp only [consistency_score]
    rw [if_neg (by omega), if_neg (by omega)]
    norm_cast
  · simp only [consistency_score]
    split_ifs with h1 h2
    · norm_num
    · norm_num
    · exact le_min (by norm_num) (le_max_left _ _)
  · simp only [consistency_score]
    split_ifs with h1 h2
    · norm_num
    · norm_num
    · exact min_le_left _ _
  · intro h
    simp only [consistency_score]
    rw [if_pos h]

/-- C7 witness: concrete evaluations discharging the hypotheses of
`consistency_score_spec`. -/
theorem consistency_score_spec_witness :
    consistency_score 7 3 = min 100 (max 0 ((7 : Rat) / ((3 : Rat) * 2) * 100)) ∧
    consistency_score 7 (-1) = 100 :=
  ⟨(consistency_score_spec 7 3).1 (by norm_num),
   (consistency_score_spec 7 (-1)).2.2.2 (by norm_num)⟩

/-- C9: the volume delta is `None` (not 0, not an error) whenever the prior
7-day window's volume is exactly 0, and equals
`(current − prior) / prior × 100` whenever the prior volume is positive. -/
theorem volume_delta_null_iff_prior_zero (c p : Rat) (hp : 0 < p) :
    volume_delta_pct (some c) (some 0) = none ∧
    volume_delta_pct (some c) (some p) = some ((c - p) / p * 100) := by
  constructor
  · simp [volume_delta_pct]
  · simp [volume_delta_pct, hp.ne']

/-- C9 witness: concrete evaluation discharging the hypothesis of
`volume_delta_null_iff_prior_zero`. -/
theorem volume_delta_null_iff_prior_zero_witness :
    volume_delta_pct (some 700) (some 0) = none ∧
    volume_delta_pct (some 700) (some 1000) = some ((700 - 1000) / 1000 * 100) :=
  volume_delta_null_iff_prior_zero 700 1000 (by norm_num)

/-- C10: with zero finalized workouts in the trailing 30-day window,
`max_gap_days` is `None` (not 30 or 29), the 14-day workout count is 0, and
dropout risk is therefore `high`. -/
theorem zero_workouts_gap_none_dropout_high (today : ℤ) :
    max_gap_days [] today = none ∧
    workouts_last_14 [] today = 0 ∧
    dropout_risk (workouts_last_14 [] today) (max_gap_days [] today) = "high" :=
  ⟨rfl, rfl, rfl⟩

/-- C8: whenever the `inconsistent_training_days` condition and the
`volume_drop` condition hold simultaneously, the primary mistake is
`inconsistent_training_days` (rule 1 fires first) and its weekly focus key
is `hit_target_days`. -/
theorem mistake_priority_inconsistent_first (w t : ℤ) (g : Option ℤ)
    (v7 vp : Rat) (ad : Option Rat) (tm : ℤ) (br : String)
    (hinc : w < max 0 (t * 2 - 1) ∨ opt_gt g 4)
    (_hvd : 0 < vp ∧ (vp - v7) / vp * 100 ≥ 25) :
    detect_mistake w t g (some v7) vp ad tm br
      = some ("inconsistent_training_days", "Inconsistent Training Days") ∧
    (mistake_to_focus (some "inconsistent_training_days") tm).1
      = some "hit_target_days" := by
  constructor
  · simp only [detect_mistake]
    rw [if_pos hinc]
  · rfl

/-- C8 witness: concrete input (2 workouts against target 3, prior volume
1000 dropping to 700) discharging the hypotheses of
`mistake_priority_inconsistent_first`. -/
theorem mistake_priority_inconsistent_first_witness :
    detect_mistake 2 3 none (some 700) 1000 none 45 "low"
      = some ("inconsistent_training_days", "Inconsistent Training Days") ∧
    (mistake_to_focus (some "inconsistent_training_days") 45).1
      = some "hit_target_days" :=
  mistake_priority_inconsistent_first 2 3 none 700 1000 none 45 "low"
    (Or.inl (by norm_num)) (by norm_num)

/-- C3 counterexample: `workouts_last_14_days = 12 ≥ 12` with an average
session duration of 60 minutes yields burnout risk `medium`, not `high` —
the source checks the medium rule before the high rule. -/
theorem burnout_twelve_long_sessions_medium :
    (12 : ℤ) ≥ 12 ∧ burnout_risk 12 (some 60) 45 = "medium" ∧
    burnout_risk 12 (some 60) 45 ≠ "high" := by
  refine ⟨by norm_num, ?_, ?_⟩
  · norm_num [burnout_risk, truthy_ge_60]
  · norm_num [burnout_risk, truthy_ge_60]
    decide

/-- C3 amended: for `workouts_last_14_days ≥ 12` the burnout risk is `high`
unless the medium condition (`workouts ≥ 10` and truthy
`avg_session_duration ≥ 60`) holds, in which case the medium rule fires
first and the risk is `medium`. -/
theorem burnout_medium_rule_first (w : ℤ) (d : Option Rat) (tm : ℤ)
    (h12 : 12 ≤ w) :
    (truthy_ge_60 d → burnout_risk w d tm = "medium") ∧
    (¬ truthy_ge_60 d → burnout_risk w d tm = "high") := by
  constructor
  · intro h
    simp only [burnout_risk]
    rw [if_pos ⟨by omega, h⟩]
  · intro h
    simp only [burnout_risk]
    rw [if_neg (fun hc => h hc.2), if_pos h12]

/-- C3 amended witness: concrete evaluations discharging the hypotheses of
`burnout_medium_rule_first`. -/
theorem burnout_medium_rule_first_witness :
    burnout_risk 12 (some 60) 45 = "medium" ∧ burnout_risk 13 none 45 = "high" :=
  ⟨(burnout_medium_rule_first 12 (some 60) 45 (by norm_num)).1
      (by norm_num [truthy_ge_60]),
   (burnout_medium_rule_first 13 none 45 (by norm_num)).2
      (by simp [truthy_ge_60])⟩

/-- C4 counterexample: the syntactically safe but unrecognized IANA name
`"Foo/Bar"` passes the allow-list sanitizer unchanged (it is NOT replaced by
UTC), and the metrics computation then raises `UnknownTimeZoneError` out of
`pytz.timezone` instead of proceeding. -/
theorem unknown_safe_timezone_raises :
    sanitize_timezone "Foo/Bar" = "Foo/Bar" ∧
    compute_metrics_today ["UTC", "Asia/Kolkata", "America/New_York"] 0
      (some "Foo/Bar") none = .error "UnknownTimeZoneError" :=
  ⟨rfl, rfl⟩

/-- C4 amended: only syntactically unsafe timezone strings are replaced by
UTC (and the computation proceeds); a safe string passes the sanitizer
unchanged, after which recognized names proceed and unrecognized names make
the metrics computation raise `UnknownTimeZoneError`. -/
theorem timezone_sanitize_fallback (known : List String) (now : ℤ)
    (tz : String) (hutc : "UTC" ∈ known) (hne : tz ≠ "") :
    (sanitize_timezone tz = "UTC" →
      compute_metrics_today known now (some tz) none = .ok ("UTC", now)) ∧
    (sanitize_timezone tz = tz → tz ∈ known →
      compute_metrics_today known now (some tz) none = .ok (tz, now)) ∧
    (sanitize_timezone tz = tz → tz ∉ known →
      compute_metrics_today known now (some tz) none
        = .error "UnknownTimeZoneError") := by
  refine ⟨?_, ?_, ?_⟩
  · intro hs
    simp only [compute_metrics_today, user_today, pytz_timezone,
      if_neg hne, hs]
    rw [if_neg (by decide : ¬("UTC" = "")), if_pos hutc]
  · intro hs h2
    simp only [compute_metrics_today, user_today, pytz_timezone,
      if_neg hne, hs]
    rw [if_pos h2]
  · intro hs h2
    simp only [compute_metrics_today, user_today, pytz_timezone,
      if_neg hne, hs]
    rw [if_neg h2]

/-- C4 amended witness: the three branches of `timezone_sanitize_fallback`
at concrete inputs. -/
theorem timezone_sanitize_fallback_witness :
    compute_metrics_today ["UTC", "Asia/Kolkata"] 5 (some "bad tz!") none
      = .ok ("UTC", 5) ∧
    compute_metrics_today ["UTC", "Asia/Kolkata"] 5 (some "Asia/Kolkata") none
      = .ok ("Asia/Kolkata", 5) ∧
    compute_metrics_today ["UTC", "Asia/Kolkata"] 5 (some "Foo/Bar") none
      = .error "UnknownTimeZoneError" :=
  ⟨(timezone_sanitize_fallback _ 5 "bad tz!" (by decide) (by decide)).1
      (by decide),
   (timezone_sanitize_fallback _ 5 "Asia/Kolkata" (by decide) (by decide)).2.1
      (by decide) (by decide),
   (timezone_sanitize_fallback _ 5 "Foo/Bar" (by decide) (by decide)).2.2
      (by decide) (by decide)⟩

/-- C1: with no report stored yet, a week containing exactly 1 finalized
workout stores a report with status `insufficient_data` and a null
narrative; but a week containing exactly 2 finalized workouts RAISES
(`NameError`, from the undefined `week_end` in `_detect_learning_feedback`,
report_service.py:438) instead of returning a `generated` report — for all
aggregate values. -/
theorem generate_weekly_report_name_error (tv : Rat) (vd ad : Option Rat)
    (ws : ℤ) (llm : Option String) (fb : String) :
    generate_weekly_report none 1 tv vd ad ws llm fb
      = .ok { workouts_count := 1, status := "insufficient_data",
              narrative := none, narrative_source := none } ∧
    generate_weekly_report none 2 tv vd ad ws llm fb
      = .error "NameError: name week_end is not defined" :=
  ⟨rfl, rfl⟩

/-- C5: when the immediately preceding week's adjustment was a deload, a
fresh `compute_weekly_adjustment` with `momentum_trend = rising` (and any
consistency score) never produces a volume-increase adjustment: any row it
produces is a `burnout` deload or a `slipping` reduction. -/
theorem deload_hysteresis_no_increase (p : TrainingPlan) (m : MetricsRow)
    (la : Adjustment) (a : Adjustment)
    (hdeload : la.is_deload = true)
    (_hrising : m.momentum_trend = "rising")
    (hres : (compute_weekly_adjustment p none (some m) (some la)).2 = some a) :
    a.trigger_reason ≠ "momentum_up" ∧
    (a.trigger_reason = "burnout" ∨ a.trigger_reason = "slipping") := by
  by_cases hauto : p.auto_adjust_enabled
  case neg =>
    exfalso
    simp [compute_weekly_adjustment, hauto] at hres
  case pos =>
    simp only [compute_weekly_adjustment, momentum_threshold_of, hauto,
      hdeload, Bool.not_true, Bool.false_eq_true, if_false, if_true] at hres
    by_cases hb : m.burnout_risk = "high"
    · rw [if_pos hb] at hres
      have hrow := create_deload_row p "burnout" a hres
      refine ⟨?_, Or.inl hrow.1⟩
      rw [hrow.1]
      decide
    · rw [if_neg hb] at hres
      by_cases hm : m.primary_training_mistake_key = some "volume_drop"
      · rw [if_pos hm] at hres
        have hrow := create_reduction_row p "slipping" a hres
        refine ⟨?_, Or.inr hrow.1⟩
        rw [hrow.1]
        decide
      · rw [if_neg hm, if_pos (by norm_num : (999 : ℤ) ≥ 999)] at hres
        exact absurd hres (by simp)

/-- C5 witness: after a deload, burnout-high metrics still produce a
deload row (trigger `burnout`), never a `momentum_up` increase. -/
theorem deload_hysteresis_no_increase_witness :
    (({ previous_volume_multiplier := some 1,
        new_volume_multiplier := some (6 / 10), is_deload := true,
        trigger_reason := "burnout" } : Adjustment)).trigger_reason
      ≠ "momentum_up" ∧
    ((({ previous_volume_multiplier := some 1,
         new_volume_multiplier := some (6 / 10), is_deload := true,
         trigger_reason := "burnout" } : Adjustment)).trigger_reason = "burnout" ∨
     (({ previous_volume_multiplier := some 1,
         new_volume_multiplier := some (6 / 10), is_deload := true,
         trigger_reason := "burnout" } : Adjustment)).trigger_reason = "slipping") :=
  deload_hysteresis_no_increase ⟨1, true⟩ ⟨"high", none, "rising", some 95⟩
    ⟨some 1, some (6 / 10), true, "burnout"⟩
    ⟨some 1, some (6 / 10), true, "burnout"⟩ rfl rfl
    (by
      simp only [compute_weekly_adjustment, momentum_threshold_of,
        create_deload_adjustment, plan_prev_volume, clamp_volume, roundTo2,
        MIN_VOLUME, MAX_VOLUME]
      norm_num)

/-- C6: the plan's volume multiplier starts at 1.0 on creation and stays in
`[0.6, 1.2]` under every sequence of deload / reduction / increase
adjustments applied by the Plan Adjustment Engine. -/
theorem volume_multiplier_always_clamped (ops : List PlanOp) :
    create_plan_volume = 1 ∧
    (6 : Rat) / 10 ≤ ops.foldl apply_adjustment_volume create_plan_volume ∧
    ops.foldl apply_adjustment_volume create_plan_volume ≤ 12 / 10 := by
  have h := foldl_apply_adjustment_mem ops create_plan_volume
    ⟨by norm_num [MIN_VOLUME, create_plan_volume],
     by norm_num [MAX_VOLUME, create_plan_volume]⟩
  refine ⟨rfl, ?_, ?_⟩
  · have h1 := h.1
    rwa [MIN_VOLUME] at h1
  · have h2 := h.2
    rwa [MAX_VOLUME] at h2

/-- C2 counterexample: with starting multiplier 0.8 (inside `[0.6, 1.2]`)
the momentum branch stores 0.9 = 0.8 + 0.1, which differs from the claimed
`min(0.8 × 1.1, 1.2) = 0.88`. -/
theorem momentum_increase_not_multiplicative :
    (6 : Rat) / 10 ≤ 4 / 5 ∧ (4 : Rat) / 5 ≤ 12 / 10 ∧
    (compute_weekly_adjustment ⟨4 / 5, true⟩ none
        (some ⟨"low", none, "rising", some 95⟩) none).1.volume_multiplier
      = 9 / 10 ∧
    (9 : Rat) / 10 ≠ min (4 / 5 * (11 / 10)) (12 / 10) := by
  refine ⟨by norm_num, by norm_num, ?_, ?_⟩
  · have h :
        compute_weekly_adjustment ⟨4 / 5, true⟩ none
          (some ⟨"low", none, "rising", some 95⟩) none
        = (⟨9 / 10, true⟩,
           some ⟨some (4 / 5), some (9 / 10), false, "momentum_up"⟩) := by
      simp only [compute_weekly_adjustment, momentum_threshold_of,
        create_volume_increase, plan_prev_volume, clamp_volume, roundTo2,
        MIN_VOLUME, MAX_VOLUME]
      norm_num
      simp
    rw [h]
  · rw [min_def]
    norm_num

/-- C2 amended: whenever the momentum branch fires (auto-adjust on, no row
for the week yet, no burnout-high, no volume_drop mistake, the preceding
adjustment not a deload, momentum rising, consistency at or above the
effective threshold), the plan's volume multiplier — a two-decimal value
`n/100` with `60 ≤ n ≤ 120` — becomes `min(previous + 0.1, 1.2)`; in
particular at 1.2 the value is unchanged (no-op guard) and the increase is
additive, not a multiplication by 1.1. -/
theorem momentum_increase_adds_tenth (p : TrainingPlan) (m : MetricsRow)
    (last : Option Adjustment) (n : ℤ)
    (hauto : p.auto_adjust_enabled = true)
    (hvol : p.volume_multiplier = (n : Rat) / 100)
    (hlo : 60 ≤ n) (hhi : n ≤ 120)
    (hb : m.burnout_risk ≠ "high")
    (hm : m.primary_training_mistake_key ≠ some "volume_drop")
    (hrise : m.momentum_trend = "rising")
    (hnd : ∀ la, last = some la → la.is_deload = false)
    (hcons : (momentum_threshold_of last : Rat) ≤ m.consistency_score.getD 0) :
    (compute_weekly_adjustment p none (some m) last).1.volume_multiplier
      = min (p.volume_multiplier + 1 / 10) (12 / 10) := by
  have hle : momentum_threshold_of last ≤ 85 := by
    cases last with
    | none => norm_num [momentum_threshold_of]
    | some la =>
      have hd : la.is_deload = false := hnd la rfl
      simp only [momentum_threshold_of, hd, Bool.false_eq_true, if_false]
      rcases la.previous_volume_multiplier with _ | pv <;>
        rcases la.new_volume_multiplier with _ | nv <;>
          simp only [] <;> try norm_num
      split_ifs <;> norm_num
  have hpos : (0 : Rat) < (n : Rat) / 100 := by
    have h60 : (60 : Rat) ≤ (n : Rat) := by exact_mod_cast hlo
    linarith
  have hprev : plan_prev_volume p = (n : Rat) / 100 := by
    rw [plan_prev_volume, hvol, if_neg (ne_of_gt hpos)]
  have hcast : ((n : Rat) / 100 + 1 / 10) = (((n + 10 : ℤ) : Rat)) / 100 := by
    push_cast
    ring
  have hmin : min ((12 : Rat) / 10) ((n : Rat) / 100 + 1 / 10)
      = ((min (n + 10) 120 : ℤ) : Rat) / 100 := by
    rw [hcast, min_comm,
      show (12 : Rat) / 10 = ((120 : ℤ) : Rat) / 100 by norm_num,
      min_div_div_right (by norm_num : (0 : Rat) ≤ 100)]
    norm_cast
  have hk1 : 70 ≤ min (n + 10) 120 := le_min (by omega) (by omega)
  have hk2 : min (n + 10) 120 ≤ 120 := min_le_right _ _
  have hclamp : clamp_volume (((min (n + 10) 120 : ℤ) : Rat) / 100)
      = ((min (n + 10) 120 : ℤ) : Rat) / 100 := by
    have hmax : max MIN_VOLUME (((min (n + 10) 120 : ℤ) : Rat) / 100)
        = ((min (n + 10) 120 : ℤ) : Rat) / 100 := by
      apply max_eq_right
      rw [MIN_VOLUME]
      have : (70 : Rat) ≤ ((min (n + 10) 120 : ℤ) : Rat) := by exact_mod_cast hk1
      linarith
    have hmn : min MAX_VOLUME (((min (n + 10) 120 : ℤ) : Rat) / 100)
        = ((min (n + 10) 120 : ℤ) : Rat) / 100 := by
      apply min_eq_right
      rw [MAX_VOLUME]
      have : ((min (n + 10) 120 : ℤ) : Rat) ≤ (120 : Rat) := by exact_mod_cast hk2
      linarith
    rw [clamp_volume, hmax, hmn, roundTo2_int_div_100]
  have hstep :
      (compute_weekly_adjustment p none (some m) last)
        = create_volume_increase p "momentum_up" := by
    simp only [compute_weekly_adjustment, hauto, Bool.not_true,
      Bool.false_eq_true, if_false]
    rw [if_neg hb, if_neg hm, if_neg (by omega), if_pos hrise,
      if_pos hcons]
  rw [hstep]
  simp only [create_volume_increase, hprev, hmin, hclamp,
    roundTo2_int_div_100]
  by_cases hg : ((min (n + 10) 120 : ℤ) : Rat) / 100 = (n : Rat) / 100
  · rw [if_pos hg]
    have hkn : min (n + 10) 120 = n := by
      have h100 : ((min (n + 10) 120 : ℤ) : Rat) = (n : Rat) := by
        have hmul := congrArg (fun x : Rat => x * 100) hg
        simpa using hmul
      exact_mod_cast h100
    have hn120 : n = 120 := by omega
    subst hn120
    show p.volume_multiplier = _
    rw [hvol]
    norm_num [min_def]
  · rw [if_neg hg, hvol, hcast,
      show ((12 : Rat) / 10) = ((120 : ℤ) : Rat) / 100 by norm_num,
      min_div_div_right (by norm_num : (0 : Rat) ≤ 100)]
    show ((min (n + 10) 120 : ℤ) : Rat) / 100 = _
    norm_cast

/-- C2 amended witness: starting at 0.8 with rising momentum and
consistency 95, the stored multiplier is `min(0.8 + 0.1, 1.2) = 0.9`. -/
theorem momentum_increase_adds_tenth_witness :
    (compute_weekly_adjustment ⟨4 / 5, true⟩ none
        (some ⟨"low", none, "rising", some 95⟩) none).1.volume_multiplier
      = min ((4 : Rat) / 5 + 1 / 10) (12 / 10) :=
  momentum_increase_adds_tenth ⟨4 / 5, true⟩ ⟨"low", none, "rising", some 95⟩
    none 80 rfl (by norm_num) (by norm_num) (by norm_num) (by decide)
    (by decide) rfl (fun la h => Option.noConfusion h)
    (by norm_num [momentum_threshold_of])

end Pulse
